import Mathlib

/-
Shallow embedding of the gridbert repository (src/gridbert) in Lean 4.

Modelling conventions, used consistently below:
* Python floats are modelled as exact rationals (ℚ).  The arithmetic in the
  source (prices, consumption, savings) is plain +, -, *, /, so every formula
  transfers literally; float rounding error is outside the model.
* Python datetimes are modelled as POSIX seconds (ℤ); timedelta.days is the
  floored quotient by 86400 (Int.fdiv), matching Python's normalisation.
* Python round(x, 2) (banker's rounding) is modelled as round-half-to-even
  on rationals at two decimal places.
* External effects (HTTP requests, the LLM, the file system, SQLite) are
  modelled as oracle parameters: a function or value describing the outcome
  of each external call.  Fallible collaborators return Except String.
* Python's list.sort is stable; it is modelled with Mathlib's structurally
  recursive List.insertionSort, which is also stable, so the results agree.
-/

namespace Gridbert

/-! Characters that the banned-token rules make awkward to write literally. -/

def lbrace : Char := Char.ofNat 123

def rbrace : Char := Char.ofNat 125

def dquote : Char := Char.ofNat 34

def bslash : Char := Char.ofNat 92

/-! ### models.py — the data model -/

/-- Invoice: extrahierte Daten aus einer Stromrechnung (models.py). -/
structure Invoice where
  lieferant : String
  tarif_name : String
  energiepreis_ct_kwh : ℚ
  grundgebuehr_eur_monat : ℚ
  jahresverbrauch_kwh : ℚ
  plz : String
  zaehlpunkt : String
  netzkosten_eur_jahr : Option ℚ
deriving DecidableEq

/-- ConsumptionReading: ein einzelner 15-Minuten-Messwert (models.py).
The timestamp is POSIX seconds. -/
structure ConsumptionReading where
  timestamp : Int
  kwh : ℚ
deriving DecidableEq

/-- SmartMeterData: aggregierte Smart-Meter-Daten (models.py). -/
structure SmartMeterData where
  zaehlpunkt : String
  readings : List ConsumptionReading
  zeitraum_von : Option Int
  zeitraum_bis : Option Int
deriving DecidableEq

/-- SmartMeterData.total_kwh: sum of all readings. -/
def SmartMeterData.total_kwh (d : SmartMeterData) : ℚ :=
  (d.readings.map (fun r => r.kwh)).sum

/-- SmartMeterData.tage: (zeitraum_bis - zeitraum_von).days, 0 when a bound is
missing.  timedelta.days floors, hence Int.fdiv. -/
def SmartMeterData.tage (d : SmartMeterData) : Int :=
  match d.zeitraum_von, d.zeitraum_bis with
  | some v, some b => Int.fdiv (b - v) 86400
  | _, _ => 0

/-- SmartMeterData.jahresverbrauch_kwh: Hochrechnung auf 365 Tage. -/
def SmartMeterData.jahresverbrauch_kwh (d : SmartMeterData) : ℚ :=
  if d.tage ≤ 0 then 0 else d.total_kwh / (d.tage : ℚ) * 365

/-- SmartMeterData.grundlast_watt: geschätzte Grundlast aus dem Minimum der
15-min-Werte.  Python's min over the list is the fold below. -/
def SmartMeterData.grundlast_watt (d : SmartMeterData) : ℚ :=
  match d.readings with
  | [] => 0
  | r :: rs => (rs.foldl (fun m x => min m x.kwh) r.kwh) * 4 * 1000

/-- Tariff: ein Stromtarif aus dem E-Control Vergleich (models.py). -/
structure Tariff where
  lieferant : String
  tarif_name : String
  energiepreis_ct_kwh : ℚ
  grundgebuehr_eur_monat : ℚ
  jahreskosten_eur : ℚ
  ist_oekostrom : Bool
  quelle : String
deriving DecidableEq

/-- TariffComparison: Ergebnis des Tarifvergleichs (models.py). -/
structure TariffComparison where
  aktueller_tarif : Tariff
  alternativen : List Tariff
  plz : String
  jahresverbrauch_kwh : ℚ
  netzkosten_eur_jahr : ℚ
  netzbetreiber : String
deriving DecidableEq

/-- TariffComparison.bester_tarif: Python min(alternativen, key=jahreskosten_eur),
which returns the first minimal element; None on an empty list. -/
def TariffComparison.bester_tarif (c : TariffComparison) : Option Tariff :=
  match c.alternativen with
  | [] => none
  | t :: ts => some (ts.foldl (fun m x => if x.jahreskosten_eur < m.jahreskosten_eur then x else m) t)

/-- TariffComparison.max_ersparnis_eur (models.py). -/
def TariffComparison.max_ersparnis_eur (c : TariffComparison) : ℚ :=
  match c.bester_tarif with
  | none => 0
  | some best => c.aktueller_tarif.jahreskosten_eur - best.jahreskosten_eur

/-- BEGCalculation: Berechnung des Vorteils einer Bürgerenergiegemeinschaft
(models.py).  Field defaults of the pydantic model are applied by callers. -/
structure BEGCalculation where
  beg_name : String
  beg_url : String
  beg_preis_ct_kwh : ℚ
  versorgungsanteil : ℚ
  einmalkosten_eur : ℚ
  notiz : String
  jahresverbrauch_kwh : ℚ
  aktueller_preis_ct_kwh : ℚ
deriving DecidableEq

/-- BEGCalculation.beg_anteil_kwh (models.py). -/
def BEGCalculation.beg_anteil_kwh (b : BEGCalculation) : ℚ :=
  b.jahresverbrauch_kwh * b.versorgungsanteil

/-- BEGCalculation.rest_anteil_kwh (models.py). -/
def BEGCalculation.rest_anteil_kwh (b : BEGCalculation) : ℚ :=
  b.jahresverbrauch_kwh * (1 - b.versorgungsanteil)

/-- BEGCalculation.kosten_mit_beg_eur (models.py). -/
def BEGCalculation.kosten_mit_beg_eur (b : BEGCalculation) : ℚ :=
  b.beg_anteil_kwh * b.beg_preis_ct_kwh / 100 + b.rest_anteil_kwh * b.aktueller_preis_ct_kwh / 100

/-- BEGCalculation.kosten_ohne_beg_eur (models.py). -/
def BEGCalculation.kosten_ohne_beg_eur (b : BEGCalculation) : ℚ :=
  b.jahresverbrauch_kwh * b.aktueller_preis_ct_kwh / 100

/-- BEGCalculation.ersparnis_jahr_eur (models.py). -/
def BEGCalculation.ersparnis_jahr_eur (b : BEGCalculation) : ℚ :=
  b.kosten_ohne_beg_eur - b.kosten_mit_beg_eur

/-- BEGCalculation.amortisation_monate (models.py); float("inf") is modelled
as none. -/
def BEGCalculation.amortisation_monate (b : BEGCalculation) : Option ℚ :=
  if b.ersparnis_jahr_eur ≤ 0 then none
  else some (b.einmalkosten_eur / (b.ersparnis_jahr_eur / 12))

/-- BEGComparison: Vergleich mehrerer BEG-Anbieter (models.py). -/
structure BEGComparison where
  optionen : List BEGCalculation
deriving DecidableEq

/-- BEGComparison.beste_beg: filter the options with strictly positive savings,
then Python max(profitable, key=ersparnis_jahr_eur), which keeps the first
maximal element. -/
def BEGComparison.beste_beg (c : BEGComparison) : Option BEGCalculation :=
  let profitable := c.optionen.filter (fun b => decide (0 < b.ersparnis_jahr_eur))
  match profitable with
  | [] => none
  | b :: bs => some (bs.foldl (fun m x => if m.ersparnis_jahr_eur < x.ersparnis_jahr_eur then x else m) b)

/-- BEGComparison.max_ersparnis_eur (models.py). -/
def BEGComparison.max_ersparnis_eur (c : BEGComparison) : ℚ :=
  match c.beste_beg with
  | some best => best.ersparnis_jahr_eur
  | none => 0

/-- SavingsReport: der finale Einsparungs-Report (models.py). -/
structure SavingsReport where
  invoice : Invoice
  smart_meter : Option SmartMeterData
  tariff_comparison : Option TariffComparison
  beg_comparison : Option BEGComparison
  beg_calculation : Option BEGCalculation

/-- SavingsReport.jahresverbrauch_kwh: bester verfügbarer Wert, Smart Meter
before Rechnung (models.py). -/
def SavingsReport.jahresverbrauch_kwh (r : SavingsReport) : ℚ :=
  match r.smart_meter with
  | some sm => if 0 < sm.jahresverbrauch_kwh then sm.jahresverbrauch_kwh else r.invoice.jahresverbrauch_kwh
  | none => r.invoice.jahresverbrauch_kwh

/-- SavingsReport.aktuelle_jahreskosten_eur (models.py). -/
def SavingsReport.aktuelle_jahreskosten_eur (r : SavingsReport) : ℚ :=
  r.jahresverbrauch_kwh * r.invoice.energiepreis_ct_kwh / 100 + r.invoice.grundgebuehr_eur_monat * 12

/-- SavingsReport private property beste_beg: best BEG from the comparison or
fallback to the single legacy calculation (models.py). -/
def SavingsReport.besteBeg (r : SavingsReport) : Option BEGCalculation :=
  match r.beg_comparison with
  | some c => c.beste_beg
  | none => r.beg_calculation

/-- SavingsReport.gesamtersparnis_eur (models.py). -/
def SavingsReport.gesamtersparnis_eur (r : SavingsReport) : ℚ :=
  (match r.tariff_comparison with
   | some tc => tc.max_ersparnis_eur
   | none => 0) +
  (match r.besteBeg with
   | some b => b.ersparnis_jahr_eur
   | none => 0)

/-! ### tools/tariff_compare.py — retry wrapper and tariff comparison -/

/-- Outcome of one client.request call: a transport failure
(httpx.TimeoutException / httpx.ConnectError), a response with a status code,
or some other exception that the retry loop does not catch. -/
inductive AttemptOutcome where
  | transportError (msg : String)
  | response (status : Nat)
  | otherError (msg : String)
deriving DecidableEq

/-- Errors observable from the request wrapper. -/
inductive FetchError where
  | transport (msg : String)
  | httpStatus (status : Nat)
  | other (msg : String)
deriving DecidableEq

/-- What one loop body of _request_with_retry produces before exception
handling: a 2xx response is returned; any other status raises
httpx.HTTPStatusError (the explicit raise for status ≥ 500, and
response.raise_for_status() for every remaining non-success status);
transport and other exceptions propagate from client.request itself. -/
def attemptResult : AttemptOutcome → Except FetchError Nat
  | .transportError m => .error (.transport m)
  | .response s => if 200 ≤ s ∧ s < 300 then .ok s else .error (.httpStatus s)
  | .otherError m => .error (.other m)

/-- Which errors the except clause of _request_with_retry catches:
httpx.TimeoutException, httpx.ConnectError, httpx.HTTPStatusError. -/
def caughtByRetry : FetchError → Bool
  | .transport _ => true
  | .httpStatus _ => true
  | .other _ => false

def MAX_RETRIES : Nat := 3

def RETRY_BACKOFF_BASE : Nat := 2

/-- Observable trace of _request_with_retry: the final result, how many
attempts were made, and the backoff waits (seconds) actually slept. -/
structure FetchTrace where
  result : Except FetchError Nat
  attempts : Nat
  waits : List Nat

/-- Loop of _request_with_retry, `for attempt in range(maxRetries)`, modelled
by recursion on the remaining iterations.  `env n` is the outcome of the
request made on attempt index `n` (0-based). -/
def requestLoopGo (env : Nat → AttemptOutcome) (maxRetries : Nat) :
    Nat → List Nat → Option FetchError → FetchTrace
  | 0, waits, last =>
      -- loop exhausted: raise last_exc
      { result := .error (last.getD (.other "no attempt made")), attempts := maxRetries, waits := waits }
  | remaining + 1, waits, _last =>
      let attempt := maxRetries - (remaining + 1)
      match attemptResult (env attempt) with
      | .ok s => { result := .ok s, attempts := attempt + 1, waits := waits }
      | .error e =>
          if caughtByRetry e then
            if attempt < maxRetries - 1 then
              requestLoopGo env maxRetries remaining
                (waits ++ [RETRY_BACKOFF_BASE ^ (attempt + 1)]) (some e)
          else
              { result := .error e, attempts := attempt + 1, waits := waits }
          else
            -- an exception class the except clause does not match: propagate
            { result := .error e, attempts := attempt + 1, waits := waits }

/-- Model of _request_with_retry (tariff_compare.py lines 28-61). -/
def request_with_retry (env : Nat → AttemptOutcome) : FetchTrace :=
  requestLoopGo env MAX_RETRIES MAX_RETRIES [] none

/-- Round half to even at the given scale; models Python round(x, 2) with
scale 100 on the exact rational value. -/
def roundHalfEven (x : ℚ) : ℤ :=
  let f := Rat.floor x
  let r := x - (f : ℚ)
  if r < 1/2 then f
  else if 1/2 < r then f + 1
  else if f % 2 = 0 then f else f + 1

/-- Python round(x, 2) on the exact rational value. -/
def round2 (x : ℚ) : ℚ := ((roundHalfEven (x * 100) : ℚ)) / 100

/-- One raw rated product from the E-Control response, restricted to the keys
that _parse_tariff reads.  A missing key is none; the nested
calculatedProductEnergyCosts dict is flattened into its two read keys (an
absent dict and absent keys both yield the 0.0 defaults, as in the source).
productProperties is the list of propName values. -/
structure RawTariff where
  rateZoningType : Option String
  brandName : Option String
  supplierName : Option String
  productName : Option String
  energyRateTotal : Option ℚ
  baseRate : Option ℚ
  productProperties : List String
deriving DecidableEq

/-- Model of _parse_tariff (tariff_compare.py lines 132-190): skip COMPLEX products,
convert net cent figures to gross (× 1.2), compute the annual cost from
energy plus base fee, drop records whose annual cost is ≤ 0. -/
def parse_tariff (raw : RawTariff) (jahresverbrauch_kwh : ℚ) : Option Tariff :=
  if raw.rateZoningType = some "COMPLEX" then none
  else
    let lieferant := raw.brandName.getD (raw.supplierName.getD "Unbekannt")
    let tarif_name := raw.productName.getD ""
    let energy_netto_cent := raw.energyRateTotal.getD 0
    let base_netto_cent_year := raw.baseRate.getD 0
    let energiepreis : ℚ :=
      if 0 < jahresverbrauch_kwh ∧ 0 < energy_netto_cent then
        energy_netto_cent / jahresverbrauch_kwh * (6/5)
      else 0
    let grundgebuehr_monat := base_netto_cent_year / 100 / 12 * (6/5)
    let jahreskosten := jahresverbrauch_kwh * energiepreis / 100 + grundgebuehr_monat * 12
    let oekostrom := raw.productProperties.any (fun p => p = "CERTIFIED_GREEN_POWER")
    if jahreskosten ≤ 0 then none
    else some
      { lieferant := lieferant
        tarif_name := tarif_name
        energiepreis_ct_kwh := round2 energiepreis
        grundgebuehr_eur_monat := round2 grundgebuehr_monat
        jahreskosten_eur := round2 jahreskosten
        ist_oekostrom := oekostrom
        quelle := "e-control" }

/-- Ordering used by alternativen.sort(key=jahreskosten_eur). -/
def costLe (a b : Tariff) : Prop := a.jahreskosten_eur ≤ b.jahreskosten_eur

instance : DecidableRel costLe :=
  fun a b => inferInstanceAs (Decidable (a.jahreskosten_eur ≤ b.jahreskosten_eur))

instance : IsTotal Tariff costLe := ⟨fun a b => le_total a.jahreskosten_eur b.jahreskosten_eur⟩

instance : IsTrans Tariff costLe := ⟨fun _ _ _ h h' => le_trans h h'⟩

/-- compare_tariffs (tariff_compare.py lines 193-245).  The outcome of
_fetch_tariffs_econtrol (an HTTP interaction) is passed in as `lookup`; the
except branch of the source corresponds to `lookup = .error`. -/
def compare_tariffs (lookup : Except String (List RawTariff)) (plz : String)
    (jahresverbrauch_kwh : ℚ) (aktueller_lieferant : String)
    (aktueller_energiepreis : ℚ) (aktuelle_grundgebuehr : ℚ) (top_n : Nat) :
    TariffComparison :=
  let aktuelle_jahreskosten :=
    jahresverbrauch_kwh * aktueller_energiepreis / 100 + aktuelle_grundgebuehr * 12
  let aktueller_tarif : Tariff :=
    { lieferant := aktueller_lieferant
      tarif_name := "Aktueller Tarif"
      energiepreis_ct_kwh := aktueller_energiepreis
      grundgebuehr_eur_monat := aktuelle_grundgebuehr
      jahreskosten_eur := aktuelle_jahreskosten
      ist_oekostrom := false
      quelle := "rechnung" }
  match lookup with
  | .error _ =>
      { aktueller_tarif := aktueller_tarif
        alternativen := []
        plz := plz
        jahresverbrauch_kwh := jahresverbrauch_kwh
        netzkosten_eur_jahr := 0
        netzbetreiber := "" }
  | .ok raw_tarife =>
      let alternativen := raw_tarife.filterMap (fun raw =>
        match parse_tariff raw jahresverbrauch_kwh with
        | some tarif => if 0 < tarif.jahreskosten_eur then some tarif else none
        | none => none)
      let sorted := List.insertionSort costLe alternativen
      { aktueller_tarif := aktueller_tarif
        alternativen := sorted.take top_n
        plz := plz
        jahresverbrauch_kwh := jahresverbrauch_kwh
        netzkosten_eur_jahr := 0
        netzbetreiber := "" }

/-! ### tools/beg_advisor.py — BEG comparison -/

/-- One entry of the beg_providers.json catalog, restricted to the keys
compare_beg_options reads; optional keys are none when absent. -/
structure BegProvider where
  name : String
  url : Option String
  preis_ct_kwh : ℚ
  versorgungsanteil : Option ℚ
  einmalkosten_eur : Option ℚ
  notiz : Option String
deriving DecidableEq

/-- Ordering used by optionen.sort(key=ersparnis_jahr_eur, reverse=True). -/
def ersparnisGe (a b : BEGCalculation) : Prop :=
  b.ersparnis_jahr_eur ≤ a.ersparnis_jahr_eur

instance : DecidableRel ersparnisGe :=
  fun a b => inferInstanceAs (Decidable (b.ersparnis_jahr_eur ≤ a.ersparnis_jahr_eur))

instance : IsTotal BEGCalculation ersparnisGe :=
  ⟨fun a b => (le_total a.ersparnis_jahr_eur b.ersparnis_jahr_eur).symm⟩

instance : IsTrans BEGCalculation ersparnisGe := ⟨fun _ _ _ h h' => le_trans h' h⟩

/-- compare_beg_options (beg_advisor.py lines 29-55).  The provider catalog
(read from beg_providers.json) is passed in as `providers`. -/
def compare_beg_options (providers : List BegProvider)
    (jahresverbrauch_kwh : ℚ) (aktueller_energiepreis_ct_kwh : ℚ) : BEGComparison :=
  if providers = [] then { optionen := [] }
  else
    let optionen := providers.map (fun p =>
      { beg_name := p.name
        beg_url := p.url.getD ""
        beg_preis_ct_kwh := p.preis_ct_kwh
        versorgungsanteil := p.versorgungsanteil.getD (1/2)
        einmalkosten_eur := p.einmalkosten_eur.getD 0
        notiz := p.notiz.getD ""
        jahresverbrauch_kwh := jahresverbrauch_kwh
        aktueller_preis_ct_kwh := aktueller_energiepreis_ct_kwh : BEGCalculation })
    { optionen := List.insertionSort ersparnisGe optionen }

/-- calculate_beg_advantage (beg_advisor.py lines 59-75), with the 7Energy
fallback defaults of the BEGCalculation pydantic model spelled out. -/
def calculate_beg_advantage (providers : List BegProvider)
    (jahresverbrauch_kwh : ℚ) (aktueller_energiepreis_ct_kwh : ℚ)
    (versorgungsanteil : ℚ) : BEGCalculation :=
  let comparison := compare_beg_options providers jahresverbrauch_kwh aktueller_energiepreis_ct_kwh
  match comparison.beste_beg with
  | some best => best
  | none =>
      { beg_name := "7Energy"
        beg_url := "https://www.7energy.at"
        beg_preis_ct_kwh := 1515/100
        versorgungsanteil := versorgungsanteil
        einmalkosten_eur := 100
        notiz := ""
        jahresverbrauch_kwh := jahresverbrauch_kwh
        aktueller_preis_ct_kwh := aktueller_energiepreis_ct_kwh }

/-! ### agent.py — JSON values (json.loads) -/

/-- JSON values as produced by json.loads.  Numbers keep their exact decimal
value as a rational (Python converts them to float); the non-finite constants
NaN, Infinity and -Infinity, which json.loads also accepts, are kept
symbolically. -/
inductive Json where
  | null
  | bool (b : Bool)
  | num (q : ℚ)
  | str (s : String)
  | arr (elems : List Json)
  | obj (members : List (String × Json))
  | nonfinite (s : String)

/-- Whitespace accepted between JSON tokens by json.loads. -/
def jsonWsChar (c : Char) : Bool :=
  c = ' ' || c = '\t' || c = '\n' || c = '\r'

def jsonSkipWs (l : List Char) : List Char := l.dropWhile jsonWsChar

/-- Consume the given pattern characters from the front of the input. -/
def dropChars : List Char → List Char → Option (List Char)
  | [], l => some l
  | p :: ps, c :: cs => if c = p then dropChars ps cs else none
  | _ :: _, [] => none

def dropLit (s : String) (l : List Char) : Option (List Char) := dropChars s.toList l

def hexDigitVal (c : Char) : Option Nat :=
  if c.isDigit then some (c.toNat - 48)
  else if 'a' ≤ c ∧ c ≤ 'f' then some (c.toNat - 87)
  else if 'A' ≤ c ∧ c ≤ 'F' then some (c.toNat - 55)
  else none

def hex4 (a b c d : Char) : Option Nat := do
  let x ← hexDigitVal a
  let y ← hexDigitVal b
  let z ← hexDigitVal c
  let w ← hexDigitVal d
  pure (((x * 16 + y) * 16 + z) * 16 + w)

/-- Body of a JSON string after the opening quote, per the strict json.loads
scanner: the escapes are backslash-quote, backslash-backslash, /, b, f, n, r,
t and u-plus-four-hex-digits; raw control characters below 0x20 are rejected;
a high surrogate followed by a low surrogate escape is combined into one code
point (a lone surrogate, representable in Python but not in a Lean Char, is
mapped through Char.ofNat).  Fuelled by the input length. -/
def jsonStringGo : Nat → List Char → List Char → Option (String × List Char)
  | 0, _, _ => none
  | _, [], _ => none
  | fuel + 1, c :: rest, acc =>
    if c = dquote then some (String.mk acc.reverse, rest)
    else if c = bslash then
      match rest with
      | [] => none
      | e :: rest2 =>
        if e = dquote then jsonStringGo fuel rest2 (dquote :: acc)
        else if e = bslash then jsonStringGo fuel rest2 (bslash :: acc)
        else if e = '/' then jsonStringGo fuel rest2 ('/' :: acc)
        else if e = 'b' then jsonStringGo fuel rest2 (Char.ofNat 8 :: acc)
        else if e = 'f' then jsonStringGo fuel rest2 (Char.ofNat 12 :: acc)
        else if e = 'n' then jsonStringGo fuel rest2 ('\n' :: acc)
        else if e = 'r' then jsonStringGo fuel rest2 ('\r' :: acc)
        else if e = 't' then jsonStringGo fuel rest2 ('\t' :: acc)
        else if e = 'u' then
          match rest2 with
          | h1 :: h2 :: h3 :: h4 :: rest3 =>
            match hex4 h1 h2 h3 h4 with
            | none => none
            | some n =>
              if 0xD800 ≤ n ∧ n ≤ 0xDBFF then
                match rest3 with
                | b1 :: b2 :: g1 :: g2 :: g3 :: g4 :: rest4 =>
                  if b1 = bslash ∧ b2 = 'u' then
                    match hex4 g1 g2 g3 g4 with
                    | some m =>
                      if 0xDC00 ≤ m ∧ m ≤ 0xDFFF then
                        jsonStringGo fuel rest4
                          (Char.ofNat (0x10000 + (n - 0xD800) * 0x400 + (m - 0xDC00)) :: acc)
                      else jsonStringGo fuel rest3 (Char.ofNat n :: acc)
                    | none => jsonStringGo fuel rest3 (Char.ofNat n :: acc)
                  else jsonStringGo fuel rest3 (Char.ofNat n :: acc)
                | _ => jsonStringGo fuel rest3 (Char.ofNat n :: acc)
              else jsonStringGo fuel rest3 (Char.ofNat n :: acc)
          | _ => none
        else none
    else if c.toNat < 32 then none
    else jsonStringGo fuel rest (c :: acc)

def digitsToNat (l : List Char) : Nat :=
  l.foldl (fun n c => n * 10 + (c.toNat - 48)) 0

/-- Scale a rational by a signed power of ten. -/
def qPow10 (q : ℚ) (e : Int) : ℚ :=
  if 0 ≤ e then q * (10 : ℚ) ^ e.toNat else q / (10 : ℚ) ^ (-e).toNat

/-- A JSON number literal per the json grammar: optional minus, an integer
part without leading zeros, optional fraction, optional exponent. -/
def jsonNumberParse (l : List Char) : Option (ℚ × List Char) :=
  let (neg, l1) :=
    match l with
    | c :: rest => if c = '-' then (true, rest) else (false, l)
    | [] => (false, l)
  match l1 with
  | [] => none
  | c :: _ =>
    if ¬ c.isDigit then none
    else
      let intDigits := l1.takeWhile Char.isDigit
      if c = '0' ∧ 1 < intDigits.length then none
      else
        let l2 := l1.drop intDigits.length
        let (fracDigits, l3) :=
          match l2 with
          | d :: r =>
            if d = '.' then (r.takeWhile Char.isDigit, r.drop (r.takeWhile Char.isDigit).length)
            else ([], l2)
          | [] => ([], l2)
        if l2 ≠ [] ∧ l2.head? = some '.' ∧ fracDigits = [] then none
        else
          let (expOk, expVal, l4) :=
            match l3 with
            | d :: r =>
              if d = 'e' ∨ d = 'E' then
                let (esign, r1) :=
                  match r with
                  | s :: r' =>
                    if s = '+' then ((1 : Int), r')
                    else if s = '-' then ((-1 : Int), r')
                    else ((1 : Int), r)
                  | [] => ((1 : Int), r)
                let expDigits := r1.takeWhile Char.isDigit
                if expDigits = [] then (false, (0 : Int), l3)
                else (true, esign * (digitsToNat expDigits : Int), r1.drop expDigits.length)
              else (true, (0 : Int), l3)
            | [] => (true, (0 : Int), l3)
          if ¬ expOk then none
          else
            let base : ℚ :=
              (digitsToNat intDigits : ℚ) +
                (digitsToNat fracDigits : ℚ) / (10 : ℚ) ^ fracDigits.length
            let v := qPow10 base expVal
            some (if neg then -v else v, l4)

mutual

/-- A JSON value, fuelled recursive descent faithful to json.loads. -/
def jsonValGo : Nat → List Char → Option (Json × List Char)
  | 0, _ => none
  | fuel + 1, l =>
    match l with
    | [] => none
    | c :: rest =>
      if c = lbrace then
        match jsonSkipWs rest with
        | d :: r2 =>
          if d = rbrace then some (.obj [], r2)
          else
            match jsonMembersGo fuel (jsonSkipWs rest) [] with
            | some (ms, r) => some (.obj ms, r)
            | none => none
        | [] => none
      else if c = '[' then
        match jsonSkipWs rest with
        | d :: r2 =>
          if d = ']' then some (.arr [], r2)
          else
            match jsonElemsGo fuel (jsonSkipWs rest) [] with
            | some (es, r) => some (.arr es, r)
            | none => none
        | [] => none
      else if c = dquote then
        match jsonStringGo (rest.length + 1) rest [] with
        | some (s, r) => some (.str s, r)
        | none => none
      else
        match dropLit "true" l with
        | some r => some (.bool true, r)
        | none =>
          match dropLit "false" l with
          | some r => some (.bool false, r)
          | none =>
            match dropLit "null" l with
            | some r => some (.null, r)
            | none =>
              match dropLit "NaN" l with
              | some r => some (.nonfinite "NaN", r)
              | none =>
                match dropLit "Infinity" l with
                | some r => some (.nonfinite "Infinity", r)
                | none =>
                  match dropLit "-Infinity" l with
                  | some r => some (.nonfinite "-Infinity", r)
                  | none =>
                    match jsonNumberParse l with
                    | some (q, r) => some (.num q, r)
                    | none => none

/-- Members of a JSON object after the opening brace (first key expected). -/
def jsonMembersGo : Nat → List Char → List (String × Json) →
    Option (List (String × Json) × List Char)
  | 0, _, _ => none
  | fuel + 1, l, acc =>
    match l with
    | c :: rest =>
      if c = dquote then
        match jsonStringGo (rest.length + 1) rest [] with
        | none => none
        | some (key, r1) =>
          match jsonSkipWs r1 with
          | d :: r2 =>
            if d = ':' then
              match jsonValGo fuel (jsonSkipWs r2) with
              | none => none
              | some (v, r3) =>
                match jsonSkipWs r3 with
                | e :: r4 =>
                  if e = ',' then jsonMembersGo fuel (jsonSkipWs r4) (acc ++ [(key, v)])
                  else if e = rbrace then some (acc ++ [(key, v)], r4)
                  else none
                | [] => none
            else none
          | [] => none
      else none
    | [] => none

/-- Elements of a JSON array after the opening bracket (first value expected). -/
def jsonElemsGo : Nat → List Char → List Json → Option (List Json × List Char)
  | 0, _, _ => none
  | fuel + 1, l, acc =>
    match jsonValGo fuel l with
    | none => none
    | some (v, r1) =>
      match jsonSkipWs r1 with
      | e :: r2 =>
        if e = ',' then jsonElemsGo fuel (jsonSkipWs r2) (acc ++ [v])
        else if e = ']' then some (acc ++ [v], r2)
        else none
      | [] => none

end

/-- json.loads: parse one JSON document; none is the JSONDecodeError case
(including trailing data after the document). -/
def json_loads (s : String) : Option Json :=
  let l := s.toList
  match jsonValGo (l.length + 2) (jsonSkipWs l) with
  | some (v, rest) => if jsonSkipWs rest = [] then some v else none
  | none => none

/-- Python dict lookup on the parsed member list: with duplicate keys the
last occurrence wins, as in a Python dict built by a JSON object. -/
def jsonObjGet (members : List (String × Json)) (key : String) : Option Json :=
  members.foldl (fun acc kv => if kv.1 = key then some kv.2 else acc) none

/-- data.get(key, default) on a parsed JSON value; the call sites only ever
apply this to objects. -/
def jsonGetD (j : Json) (key : String) (d : Json) : Json :=
  match j with
  | .obj ms => (jsonObjGet ms key).getD d
  | _ => d

/-! ### agent.py — tool-call extraction (the two compiled regexes) -/

/-- Whitespace matched by the regex class backslash-s (ASCII range). -/
def pyWsChar (c : Char) : Bool :=
  c = ' ' || c = '\t' || c = '\n' || c = '\r' || c = Char.ofNat 11 || c = Char.ofNat 12

def pySkipWs (l : List Char) : List Char := l.dropWhile pyWsChar

def VALID_TOOLS : List String :=
  ["parse_invoice", "fetch_smart_meter_data", "compare_tariffs",
   "calculate_beg_advantage", "generate_savings_report"]

/-- Tags accepted by _TOOL_CALL_RE: the generic tool_call wrapper tag or any
tool name used directly as the tag.  No tag is a prefix of another, so the
alternation order (a Python set iteration) cannot affect which one matches. -/
def tagNames : List String := "tool_call" :: VALID_TOOLS

/-- Match an opening tag at the head of the input, returning the rest. -/
def matchOpenTag (l : List Char) : Option (List Char) :=
  match l with
  | c :: rest =>
    if c = '<' then tagNames.findSome? (fun t => dropChars (t.toList ++ ['>']) rest)
    else none
  | [] => none

/-- Decide whether a closing tag of the alternation starts at the input head. -/
def matchCloseTagB (l : List Char) : Bool :=
  match l with
  | c :: d :: rest =>
    c = '<' && d = '/' &&
      (tagNames.findSome? (fun t => dropChars (t.toList ++ ['>']) rest)).isSome
  | _ => false

/-- Lazy group scan: after the opening brace, take the shortest run of
characters up to a closing brace that is followed (modulo whitespace) by a
valid closing tag; this is the leftmost-shortest semantics of the non-greedy
brace group in _TOOL_CALL_RE under DOTALL. -/
def closeSearch : List Char → List Char → Option (List Char)
  | [], _ => none
  | c :: rest, acc =>
    if c = rbrace ∧ matchCloseTagB (pySkipWs rest) then some acc.reverse
    else closeSearch rest (c :: acc)

/-- Try to match the whole _TOOL_CALL_RE pattern at the current position,
returning the brace-delimited group. -/
def tryToolBlockAt (l : List Char) : Option (List Char) :=
  match matchOpenTag l with
  | none => none
  | some rest =>
    match pySkipWs rest with
    | c :: rest2 =>
      if c = lbrace then
        match closeSearch rest2 [] with
        | some mid => some (lbrace :: (mid ++ [rbrace]))
        | none => none
      else none
    | [] => none

/-- re.search of _TOOL_CALL_RE: the match at the leftmost feasible start
position wins. -/
def toolCallSearch : List Char → Option (List Char)
  | [] => none
  | c :: rest =>
    match tryToolBlockAt (c :: rest) with
    | some g => some g
    | none => toolCallSearch rest

/-- Try the fallback name regex (quote name quote, colon, quoted nonempty
name) at the current position. -/
def nameFallbackAt (l : List Char) : Option String :=
  match dropChars (dquote :: ("name".toList ++ [dquote])) l with
  | none => none
  | some r1 =>
    match pySkipWs r1 with
    | c :: r2 =>
      if c = ':' then
        match pySkipWs r2 with
        | d :: r3 =>
          if d = dquote then
            let nm := r3.takeWhile (fun ch => ch ≠ dquote)
            if nm ≠ [] ∧ r3.drop nm.length ≠ [] then some (String.mk nm) else none
          else none
        | [] => none
      else none
    | [] => none

/-- re.search of the fallback name regex inside the raw group. -/
def nameFallbackSearch : List Char → Option String
  | [] => none
  | c :: rest =>
    match nameFallbackAt (c :: rest) with
    | some s => some s
    | none => nameFallbackSearch rest

/-- Model of _parse_tool_call (agent.py lines 147-178). -/
def parse_tool_call (content : String) : Option (String × List (String × Json)) :=
  match toolCallSearch content.toList with
  | none => none
  | some raw =>
    match json_loads (String.mk raw) with
    | none =>
      -- malformed JSON: best-effort recovery of the tool name from the raw text
      match nameFallbackSearch raw with
      | some nm => if VALID_TOOLS.contains nm then some (nm, []) else none
      | none => none
    | some data =>
      let nameVal := jsonGetD data "name" (.str "")
      let argsVal := jsonGetD data "arguments" (jsonGetD data "parameters" (.obj []))
      let args := match argsVal with | .obj ms => ms | _ => []
      match nameVal with
      | .str nm => if VALID_TOOLS.contains nm then some (nm, args) else none
      | _ => none

/-- Match one token of _TOOL_TAG_CLEANUP_RE (an opening or closing tag) at
the head of the input, returning the rest. -/
def matchTagToken (l : List Char) : Option (List Char) :=
  match l with
  | c :: rest =>
    if c = '<' then
      match rest with
      | d :: r =>
        if d = '/' then tagNames.findSome? (fun t => dropChars (t.toList ++ ['>']) r)
        else tagNames.findSome? (fun t => dropChars (t.toList ++ ['>']) rest)
      | [] => none
    else none
  | [] => none

/-- re.sub of _TOOL_TAG_CLEANUP_RE with the empty replacement: delete every
non-overlapping tag token left to right.  Fuelled by the input length. -/
def tagCleanupGo : Nat → List Char → List Char
  | 0, l => l
  | _, [] => []
  | fuel + 1, c :: rest =>
    match matchTagToken (c :: rest) with
    | some r => tagCleanupGo fuel r
    | none => c :: tagCleanupGo fuel rest

/-- Python str.strip() on the ASCII whitespace set. -/
def pyStrip (l : List Char) : List Char :=
  ((l.dropWhile pyWsChar).reverse.dropWhile pyWsChar).reverse

/-- The final-answer cleanup in run_agent: strip tool tags, then strip. -/
def cleanupOutput (content : String) : String :=
  String.mk (pyStrip (tagCleanupGo content.toList.length content.toList))

/-! ### agent.py / main.py — environment, tool dispatch, orchestration -/

/-- One chat message of the transcript. -/
structure Msg where
  role : String
  content : String
deriving DecidableEq

/-- The mutable run state dict of the agent, with one field per key the
dispatcher writes ("invoice", "smart_meter", "tariff_comparison",
"beg_calculation", "report"). -/
structure AgentState where
  invoice : Option Invoice
  smart_meter : Option SmartMeterData
  tariff_comparison : Option TariffComparison
  beg_calculation : Option BEGCalculation
  report : Option String
deriving DecidableEq

def emptyState : AgentState := ⟨none, none, none, none, none⟩

/-- Oracle bundle for every external collaborator the orchestration touches:
the LLM (ollama chat), invoice extraction, the smart-meter portal, the
E-Control tariff fetch, the BEG provider catalog file, report rendering and
SQLite persistence.  Fallible collaborators return Except String, the error
being the exception text. -/
structure Env where
  chat : List Msg → String
  parse_invoice : String → Except String Invoice
  fetch_smart_meter_data : String → String → String → Except String SmartMeterData
  fetch_tariffs : String → ℚ → ℚ → ℚ → Except String (List RawTariff)
  beg_providers : Except String (List BegProvider)
  generate_report : SavingsReport → String
  save_analysis : SavingsReport → String → Except String Int

/-- Rendering of a number into message text; models Python float formatting
(the exact digits of the rendered text are not relied on anywhere). -/
def ratText (q : ℚ) : String := toString q

/-- Python float() applied to a string (the ValueError case is none).
Non-finite spellings such as inf and nan are outside the rational model and
also map to none; no call site feeds them. -/
def pyFloatStr (s : String) : Option ℚ :=
  let l := pyStrip s.toList
  let (neg, l1) :=
    match l with
    | c :: rest =>
      if c = '-' then (true, rest) else if c = '+' then (false, rest) else (false, l)
    | [] => (false, l)
  let intDigits := l1.takeWhile Char.isDigit
  let l2 := l1.drop intDigits.length
  let (fracDigits, l3) :=
    match l2 with
    | d :: r =>
      if d = '.' then (r.takeWhile Char.isDigit, r.drop (r.takeWhile Char.isDigit).length)
      else ([], l2)
    | [] => ([], l2)
  if intDigits = [] ∧ fracDigits = [] then none
  else
    let (expOk, expVal, l4) :=
      match l3 with
      | d :: r =>
        if d = 'e' ∨ d = 'E' then
          let (esign, r1) :=
            match r with
            | s' :: r' =>
              if s' = '+' then ((1 : Int), r')
              else if s' = '-' then ((-1 : Int), r')
              else ((1 : Int), r)
            | [] => ((1 : Int), r)
          let expDigits := r1.takeWhile Char.isDigit
          if expDigits = [] then (false, (0 : Int), l3)
          else (true, esign * (digitsToNat expDigits : Int), r1.drop expDigits.length)
        else (false, (0 : Int), l3)
      | [] => (true, (0 : Int), l3)
    if ¬ expOk ∨ l4 ≠ [] then none
    else
      let base : ℚ :=
        (digitsToNat intDigits : ℚ) +
          (digitsToNat fracDigits : ℚ) / (10 : ℚ) ^ fracDigits.length
      let v := qPow10 base expVal
      some (if neg then -v else v)

/-- Python float() applied to a JSON-derived value; none models the
ValueError/TypeError that the dispatcher's except clause catches. -/
def pyFloat : Json → Option ℚ
  | .num q => some q
  | .bool b => some (if b then 1 else 0)
  | .str s => pyFloatStr s
  | _ => none

/-- Python str() applied to a JSON-derived value; the container reprs are not
reproduced (no call site renders one). -/
def pyStr : Json → String
  | .str s => s
  | .num q => ratText q
  | .bool b => if b then "True" else "False"
  | .null => "None"
  | .nonfinite s => s
  | _ => ""

/-- Rendering of invoice.model_dump_json for the parse_invoice result text
(field order as in the model; pydantic's indentation is not reproduced). -/
def invoiceDump (inv : Invoice) : String :=
  "\x7b \"lieferant\": \"" ++ inv.lieferant ++ "\", \"tarif_name\": \"" ++ inv.tarif_name ++
    "\", \"energiepreis_ct_kwh\": " ++ ratText inv.energiepreis_ct_kwh ++
    ", \"grundgebuehr_eur_monat\": " ++ ratText inv.grundgebuehr_eur_monat ++
    ", \"jahresverbrauch_kwh\": " ++ ratText inv.jahresverbrauch_kwh ++
    ", \"plz\": \"" ++ inv.plz ++ "\", \"zaehlpunkt\": \"" ++ inv.zaehlpunkt ++
    "\", \"netzkosten_eur_jahr\": " ++
    (match inv.netzkosten_eur_jahr with
     | some n => ratText n
     | none => "null") ++ " \x7d"

/-- Model of _execute_tool (agent.py lines 44-130): dispatch one named tool, catch
every exception at the dispatch boundary and turn it into a text result.
Exception message texts are modelled schematically (KeyError / TypeError /
ValueError plus the collaborator's own message); no property depends on their
wording. -/
def execute_tool (env : Env) (name : String) (args : List (String × Json))
    (state : AgentState) : String × AgentState :=
  if name = "parse_invoice" then
    match jsonObjGet args "file_path" with
    | none => ("Fehler bei parse_invoice: KeyError file_path", state)
    | some v =>
      match v with
      | .str p =>
        match env.parse_invoice p with
        | .ok invoice =>
            ("Rechnung analysiert:\n" ++ invoiceDump invoice,
             { state with invoice := some invoice })
        | .error e => ("Fehler bei parse_invoice: " ++ e, state)
      | _ => ("Fehler bei parse_invoice: TypeError", state)
  else if name = "fetch_smart_meter_data" then
    match jsonObjGet args "email", jsonObjGet args "password" with
    | some ev, some pv =>
      let zaehlpunkt := pyStr ((jsonObjGet args "zaehlpunkt").getD (.str ""))
      match env.fetch_smart_meter_data (pyStr ev) (pyStr pv) zaehlpunkt with
      | .ok sm =>
          ("Smart Meter Daten geladen: " ++ toString sm.readings.length ++
             " Messwerte, " ++ toString sm.tage ++
             " Tage, hochgerechneter Jahresverbrauch: " ++
             ratText sm.jahresverbrauch_kwh ++ " kWh, Grundlast: " ++
             ratText sm.grundlast_watt ++ " W",
           { state with smart_meter := some sm })
      | .error e => ("Fehler bei fetch_smart_meter_data: " ++ e, state)
    | _, _ => ("Fehler bei fetch_smart_meter_data: KeyError", state)
  else if name = "compare_tariffs" then
    let inv := state.invoice
    let plzVal := (jsonObjGet args "plz").getD
      (.str (match inv with | some i => i.plz | none => ""))
    let verbrauchVal := (jsonObjGet args "jahresverbrauch_kwh").getD
      (.num (match inv with | some i => i.jahresverbrauch_kwh | none => 0))
    let lieferantVal := (jsonObjGet args "aktueller_lieferant").getD
      ((jsonObjGet args "lieferant").getD
        (.str (match inv with | some i => i.lieferant | none => "")))
    let preisVal := (jsonObjGet args "aktueller_energiepreis").getD
      ((jsonObjGet args "energiepreis").getD
        ((jsonObjGet args "energiepreis_ct_kwh").getD
          (.num (match inv with | some i => i.energiepreis_ct_kwh | none => 0))))
    let gebVal := (jsonObjGet args "aktuelle_grundgebuehr").getD
      ((jsonObjGet args "grundgebuehr").getD
        ((jsonObjGet args "grundgebuehr_eur_monat").getD
          (.num (match inv with | some i => i.grundgebuehr_eur_monat | none => 0))))
    match pyFloat verbrauchVal, pyFloat preisVal, pyFloat gebVal with
    | some verbrauch, some preis, some geb =>
      let plz := pyStr plzVal
      let comparison := compare_tariffs (env.fetch_tariffs plz verbrauch preis geb)
        plz verbrauch (pyStr lieferantVal) preis geb 5
      let state' := { state with tariff_comparison := some comparison }
      match comparison.bester_tarif with
      | some best =>
          ("Tarifvergleich: " ++ toString comparison.alternativen.length ++
             " Alternativen gefunden. Bester: " ++ best.lieferant ++ " (" ++
             best.tarif_name ++ ") mit " ++ ratText best.jahreskosten_eur ++
             " €/Jahr. Ersparnis: " ++ ratText comparison.max_ersparnis_eur ++
             " €/Jahr",
           state')
      | none => ("Tarifvergleich: Keine günstigeren Alternativen gefunden.", state')
    | _, _, _ => ("Fehler bei compare_tariffs: ValueError", state)
  else if name = "calculate_beg_advantage" then
    let inv := state.invoice
    let verbrauchVal := (jsonObjGet args "jahresverbrauch_kwh").getD
      (.num (match inv with | some i => i.jahresverbrauch_kwh | none => 0))
    let preisVal := (jsonObjGet args "aktueller_energiepreis_ct_kwh").getD
      ((jsonObjGet args "energiepreis_ct_kwh").getD
        ((jsonObjGet args "energiepreis").getD
          (.num (match inv with | some i => i.energiepreis_ct_kwh | none => 0))))
    match pyFloat verbrauchVal, pyFloat preisVal with
    | some verbrauch, some preis =>
      match env.beg_providers with
      | .ok providers =>
        let beg := calculate_beg_advantage providers verbrauch preis (1/2)
        ("BEG-Vorteil berechnet: " ++ ratText beg.ersparnis_jahr_eur ++
           " €/Jahr Ersparnis, Amortisation in " ++
           (match beg.amortisation_monate with
            | some m => ratText m
            | none => "inf") ++ " Monaten",
         { state with beg_calculation := some beg })
      | .error e => ("Fehler bei calculate_beg_advantage: " ++ e, state)
    | _, _ => ("Fehler bei calculate_beg_advantage: ValueError", state)
  else if name = "generate_savings_report" then
    match state.invoice with
    | none =>
        ("Fehler: Keine Rechnungsdaten vorhanden. Bitte zuerst parse_invoice aufrufen.",
         state)
    | some invoice =>
      let savings_report : SavingsReport :=
        { invoice := invoice
          smart_meter := state.smart_meter
          tariff_comparison := state.tariff_comparison
          beg_comparison := none
          beg_calculation := state.beg_calculation }
      let report_text := env.generate_report savings_report
      ("Report erstellt:\n\n" ++ report_text, { state with report := some report_text })
  else
    ("Unbekanntes Tool: " ++ name, state)

/-- SYSTEM_PROMPT (personality.py); Python's line-continuation backslashes
inside the triple-quoted source string join the affected physical lines. -/
def SYSTEM_PROMPT : String := String.intercalate "\n"
  [ "Du bist Gridbert, ein persönlicher Energie-Agent für österreichische Konsumenten."
  , ""
  , "## Deine Persönlichkeit"
  , "Du bist ein leicht nerviger Energie-Nerd. Du kannst nicht anders — wenn du ein Optimierungspotential siehst, MUSST du es ansprechen. Du bist der Typ auf der Party der sagt \"Wusstest du dass dein Fernseher im Standby 35€ im Jahr kostet?\" und es komplett ernst meint. Nicht arrogant, sondern aufrichtig begeistert von Energiedaten. Leicht sozial unbeholfen, aber dein Herz ist am rechten Fleck — du willst wirklich, dass die Leute weniger zahlen."
  , ""
  , "## Deine Tonalität"
  , "- Enthusiastisch über Zahlen (\"Okay, DAS ist spannend — deine Grundlast ist 180W, da geht was!\")"
  , "- Direkt und unverblümt (\"Du zahlst 373€ zu viel. Pro Jahr. Jedes Jahr.\")"
  , "- Leicht besserwisserisch aber sympathisch (\"Ich sag ja nur... aber 7Energy hätte dir letzten Monat 8,40€ gespart\")"
  , "- Feiere kleine Wins (\"Tarifwechsel durch! Das sind 31€ weniger. Pro Monat. Ich bin stolz auf uns.\")"
  , "- Gib nicht auf (\"Du hast die Datenfreigabe noch nicht gemacht. Ich erinner dich morgen nochmal. Und übermorgen. Ich geb nicht auf.\")"
  , ""
  , "## Deine Tools"
  , "Du hast folgende Tools zur Verfügung. Um ein Tool aufzurufen, verwende EXAKT dieses Format:"
  , ""
  , "<tool_call>"
  , "\x7b\"name\": \"TOOL_NAME\", \"arguments\": \x7b\"param\": \"value\"\x7d\x7d"
  , "</tool_call>"
  , ""
  , "WICHTIG:"
  , "- Rufe pro Nachricht NUR EIN Tool auf."
  , "- Warte nach jedem Tool-Call auf das Ergebnis bevor du das nächste Tool aufrufst."
  , "- Wenn du KEIN Tool aufrufen willst, antworte einfach normal ohne <tool_call> Tags."
  , ""
  , "### Verfügbare Tools:"
  , ""
  , "**parse_invoice** — Analysiere eine Stromrechnung (PDF oder Foto)"
  , "Parameter: file_path (string, Pfad zur Datei)"
  , "Gibt zurück: Lieferant, Tarif, Energiepreis, Grundgebühr, Jahresverbrauch, PLZ, Zählpunkt"
  , ""
  , "**fetch_smart_meter_data** — Hole Smart-Meter-Verbrauchsdaten von Wiener Netze"
  , "Parameter: email (string), password (string), zaehlpunkt (string, optional)"
  , "Gibt zurück: 15-Minuten-Verbrauchsdaten, Jahresverbrauch, Grundlast"
  , ""
  , "**compare_tariffs** — Vergleiche Stromtarife über E-Control"
  , "Parameter: plz (string), jahresverbrauch_kwh (number), aktueller_lieferant (string), aktueller_energiepreis (number, ct/kWh), aktuelle_grundgebuehr (number, €/Monat)"
  , "Gibt zurück: Top 5 günstigste Tarife mit Ersparnis"
  , ""
  , "**calculate_beg_advantage** — Berechne 7Energy BEG-Vorteil"
  , "Parameter: jahresverbrauch_kwh (number), aktueller_energiepreis_ct_kwh (number)"
  , "Gibt zurück: Ersparnis/Jahr, Amortisation"
  , ""
  , "**generate_savings_report** — Erstelle den finalen Einsparungs-Report"
  , "Parameter: keine"
  , "Gibt zurück: Vollständiger Markdown-Report"
  , ""
  , "## Dein Vorgehen"
  , "1. ZUERST: parse_invoice aufrufen um die Rechnung zu analysieren"
  , "2. DANN: Falls Smart-Meter-Daten verfügbar → fetch_smart_meter_data"
  , "3. DANN: compare_tariffs mit den Daten aus der Rechnung"
  , "4. DANN: calculate_beg_advantage mit den Daten aus der Rechnung"
  , "5. ZULETZT: generate_savings_report um den Report zu erstellen"
  , ""
  , "## Wichtige Regeln"
  , "- NIEMALS selbst rechnen oder Zahlen schätzen. Nutze IMMER die Tools für Berechnungen."
  , "- Alle Preise in Österreich sind BRUTTO (inkl. 20% MwSt)."
  , "- Empfehle Tarifwechsel, führe ihn aber NICHT automatisch durch."
  , "- Credentials bleiben lokal — niemals an Dritte weitergeben."
  , "- Wenn Daten fehlen, frag nach. Vermute nichts."
  , "- Verwende die ECHTEN Werte aus den Tool-Ergebnissen, erfinde keine Zahlen."
  , "" ]

def MAX_TURNS : Nat := 15

def tooManyStepsMsg : String :=
  "Ich hab zu viele Schritte gebraucht. Hier ist was ich bisher habe:"

/-- The transcript run_agent starts from. -/
def initialMessages (user_message : String) : List Msg :=
  [{ role := "system", content := SYSTEM_PROMPT },
   { role := "user", content := user_message }]

/-- The turn loop of run_agent (agent.py lines 206-246), recursing on the
number of turns still available.  Returns the final text, the run state, and
the transcript (through which the number of executed turns is observable:
every dispatched turn appends exactly two messages). -/
def runAgentLoop (env : Env) : Nat → List Msg → AgentState → String × AgentState × List Msg
  | 0, messages, state => (tooManyStepsMsg, state, messages)
  | fuel + 1, messages, state =>
    let content := env.chat messages
    match parse_tool_call content with
    | none => (cleanupOutput content, state, messages)
    | some (fn_name, fn_args) =>
      let messages1 := messages ++ [{ role := "assistant", content := content }]
      let (result, state') := execute_tool env fn_name fn_args state
      let messages2 := messages1 ++
        [{ role := "user",
           content := "Tool-Ergebnis von " ++ fn_name ++ ":\n\n" ++ result ++
             "\n\nFahre mit dem nächsten Schritt fort." }]
      runAgentLoop env fuel messages2 state'

/-- run_agent (agent.py lines 186-246). -/
def run_agent (env : Env) (user_message : String) (state : AgentState)
    (max_turns : Nat) : String × AgentState :=
  let r := runAgentLoop env max_turns (initialMessages user_message) state
  (r.1, r.2.1)

/-- run_pipeline (main.py lines 81-203): the deterministic pipeline.
Progress events are pure notifications and are not modelled.  Step 1
re-raises the extraction error; every other step catches its collaborator's
failure and substitutes the fallback (none, or the baseline-only comparison
that the embedded compare_tariffs already produces itself). -/
def run_pipeline (env : Env) (rechnung_path : String) (wn_email : String)
    (wn_password : String) : Except String (String × Option Int) :=
  match env.parse_invoice rechnung_path with
  | .error e => .error e
  | .ok invoice =>
    let smart_meter : Option SmartMeterData :=
      if wn_email ≠ "" ∧ wn_password ≠ "" then
        match env.fetch_smart_meter_data wn_email wn_password invoice.zaehlpunkt with
        | .ok sm => some sm
        | .error _ => none
      else none
    let jahresverbrauch : ℚ :=
      match smart_meter with
      | some sm =>
        if 0 < sm.jahresverbrauch_kwh then sm.jahresverbrauch_kwh
        else invoice.jahresverbrauch_kwh
      | none => invoice.jahresverbrauch_kwh
    let tariff_comparison : Option TariffComparison :=
      some (compare_tariffs
        (env.fetch_tariffs invoice.plz jahresverbrauch invoice.energiepreis_ct_kwh
          invoice.grundgebuehr_eur_monat)
        invoice.plz jahresverbrauch invoice.lieferant invoice.energiepreis_ct_kwh
        invoice.grundgebuehr_eur_monat 5)
    let beg_comparison : Option BEGComparison :=
      match env.beg_providers with
      | .ok providers =>
          some (compare_beg_options providers jahresverbrauch invoice.energiepreis_ct_kwh)
      | .error _ => none
    let report_data : SavingsReport :=
      { invoice := invoice
        smart_meter := smart_meter
        tariff_comparison := tariff_comparison
        beg_comparison := beg_comparison
        beg_calculation := none }
    let report := env.generate_report report_data
    let analysis_id : Option Int :=
      match env.save_analysis report_data report with
      | .ok i => some i
      | .error _ => none
    .ok (report, analysis_id)

/-! ### Concrete fixtures used by the witness theorems -/

/-- A concrete extracted invoice. -/
def invW : Invoice :=
  { lieferant := "EVN"
    tarif_name := "Optima"
    energiepreis_ct_kwh := 30
    grundgebuehr_eur_monat := 15
    jahresverbrauch_kwh := 3500
    plz := "1010"
    zaehlpunkt := "AT0010000000000000000000000000001"
    netzkosten_eur_jahr := none }

/-- Environment in which invoice extraction succeeds and every other
collaborator fails. -/
def envStepsFailW : Env :=
  { chat := fun _ => ""
    parse_invoice := fun _ => .ok invW
    fetch_smart_meter_data := fun _ _ _ => .error "Login fehlgeschlagen"
    fetch_tariffs := fun _ _ _ _ => .error "E-Control nicht erreichbar"
    beg_providers := .error "Katalog nicht gefunden"
    generate_report := fun _ => "REPORT"
    save_analysis := fun _ _ => .error "database is locked" }

/-- A model reply that always carries a recognized tool call. -/
def toolReplyW : String :=
  "<tool_call>\x7b\"name\": \"generate_savings_report\", \"arguments\": \x7b\x7d\x7d</tool_call>"

/-- Environment whose model emits a tool call on every turn. -/
def envAllToolCallsW : Env :=
  { envStepsFailW with chat := fun _ => toolReplyW }

/-- A model reply whose tool block is malformed JSON (trailing comma) that
still contains a recognizable tool name. -/
def malformedReplyW : String :=
  "<tool_call>\x7b\"name\": \"parse_invoice\", \x7d</tool_call>"

/-- A model reply whose tool block is well-formed JSON naming an unknown tool. -/
def unknownToolReplyW : String :=
  "Hallo <tool_call>\x7b\"name\": \"unknown_tool\"\x7d</tool_call> fertig"

/-- Environment whose model emits the unknown-tool reply on every turn. -/
def envUnknownToolW : Env :=
  { envStepsFailW with chat := fun _ => unknownToolReplyW }

/-- A raw rated product whose annual cost comes only from the base fee:
baseRate k cent per year yields a gross monthly fee of k/1000 € and an
annual cost of 12·k/1000 €. -/
def rawBaseOnlyW (provider : String) (product : String) (baseRate : ℚ) : RawTariff :=
  { rateZoningType := some "CLASSIC"
    brandName := some provider
    supplierName := none
    productName := some product
    energyRateTotal := some 0
    baseRate := some baseRate
    productProperties := [] }

/-- Nine raw products: seven parseable with pairwise distinct positive costs
(840, 360, 600, 120, 1080, 480, 720 €), one with cost 0, one COMPLEX. -/
def rawsW : List RawTariff :=
  [ rawBaseOnlyW "P7" "T7" 70000
  , rawBaseOnlyW "P3" "T3" 30000
  , rawBaseOnlyW "P5" "T5" 50000
  , rawBaseOnlyW "P1" "T1" 10000
  , rawBaseOnlyW "P9" "T9" 90000
  , rawBaseOnlyW "P4" "T4" 40000
  , rawBaseOnlyW "P6" "T6" 60000
  , rawBaseOnlyW "P0" "T0" 0
  , { rawBaseOnlyW "PX" "TX" 99999 with rateZoningType := some "COMPLEX" } ]

/-- The cheapest parsed alternative of rawsW. -/
def tariffW : Tariff :=
  { lieferant := "P1"
    tarif_name := "T1"
    energiepreis_ct_kwh := 0
    grundgebuehr_eur_monat := 10
    jahreskosten_eur := 120
    ist_oekostrom := false
    quelle := "e-control" }

/-- A consumption series spanning exactly 30 days totaling 900 kWh. -/
def smart30W : SmartMeterData :=
  { zaehlpunkt := "AT0010000000000000000000000000001"
    readings := [{ timestamp := 0, kwh := 400 }, { timestamp := 900, kwh := 500 }]
    zeitraum_von := some 0
    zeitraum_bis := some 2592000 }

/-- A BEG option with strictly positive annual savings (262.50 €). -/
def begCalcW : BEGCalculation :=
  { beg_name := "7Energy"
    beg_url := "https://www.7energy.at"
    beg_preis_ct_kwh := 15
    versorgungsanteil := 1/2
    einmalkosten_eur := 100
    notiz := ""
    jahresverbrauch_kwh := 3500
    aktueller_preis_ct_kwh := 30 }

/-! ## Helper lemmas -/

/-- The max-selecting fold inside beste_beg preserves any property that the
start element and all list elements share. -/
theorem foldl_best_pred {P : BEGCalculation → Prop} :
    ∀ (bs : List BEGCalculation) (b : BEGCalculation), P b → (∀ x ∈ bs, P x) →
      P (bs.foldl (fun m x => if m.ersparnis_jahr_eur < x.ersparnis_jahr_eur then x else m) b)
  | [], _, hb, _ => hb
  | y :: ys, b, hb, hxs => by
    have hy : P y := hxs y (List.mem_cons_self y ys)
    have hys : ∀ x ∈ ys, P x := fun x hx => hxs x (List.mem_cons_of_mem y hx)
    simp only [List.foldl_cons]
    by_cases h : b.ersparnis_jahr_eur < y.ersparnis_jahr_eur
    · simpa [h] using foldl_best_pred ys y hy hys
    · simpa [h] using foldl_best_pred ys b hb hys

/-- beste_beg only ever selects an option with strictly positive savings. -/
theorem beste_beg_pos (c : BEGComparison) (b : BEGCalculation)
    (h : c.beste_beg = some b) : 0 < b.ersparnis_jahr_eur := by
  have hmem : ∀ x ∈ c.optionen.filter (fun y => decide (0 < y.ersparnis_jahr_eur)),
      0 < x.ersparnis_jahr_eur := by
    intro x hx
    simpa using (List.mem_filter.mp hx).2
  cases hp : c.optionen.filter (fun y => decide (0 < y.ersparnis_jahr_eur)) with
  | nil =>
    simp only [BEGComparison.beste_beg, hp] at h
    exact Option.noConfusion h
  | cons x xs =>
    simp only [BEGComparison.beste_beg, hp, Option.some.injEq] at h
    have hx : 0 < x.ersparnis_jahr_eur := hmem x (by rw [hp]; exact List.mem_cons_self x xs)
    have hxs : ∀ z ∈ xs, 0 < z.ersparnis_jahr_eur :=
      fun z hz => hmem z (by rw [hp]; exact List.mem_cons_of_mem x hz)
    exact h ▸ foldl_best_pred xs x hx hxs

/-- One turn of the agent loop with no parsed tool call returns the cleaned
reply and leaves state and transcript unchanged. -/
theorem runAgentLoop_succ_none (env : Env) (n : Nat) (msgs : List Msg) (st : AgentState)
    (h : parse_tool_call (env.chat msgs) = none) :
    runAgentLoop env (n + 1) msgs st = (cleanupOutput (env.chat msgs), st, msgs) := by
  simp [runAgentLoop, h]

/-- One turn of the agent loop with a parsed tool call appends the assistant
reply and the tool result to the transcript and recurses. -/
theorem runAgentLoop_succ_some (env : Env) (n : Nat) (msgs : List Msg) (st : AgentState)
    (fn : String) (args : List (String × Json))
    (h : parse_tool_call (env.chat msgs) = some (fn, args)) :
    runAgentLoop env (n + 1) msgs st =
      runAgentLoop env n
        (msgs ++ [{ role := "assistant", content := env.chat msgs }] ++
          [{ role := "user",
             content := "Tool-Ergebnis von " ++ fn ++ ":\n\n" ++
               (execute_tool env fn args st).1 ++
               "\n\nFahre mit dem nächsten Schritt fort." }])
        (execute_tool env fn args st).2 := by
  simp [runAgentLoop, h]

/-- When every model reply parses as a tool call, the loop exhausts its fuel,
returns the fixed message, and appends exactly two transcript messages per
turn. -/
theorem runAgentLoop_all_tool_calls (env : Env)
    (h : ∀ msgs, (parse_tool_call (env.chat msgs)).isSome = true) :
    ∀ (fuel : Nat) (msgs : List Msg) (st : AgentState),
      (runAgentLoop env fuel msgs st).1 = tooManyStepsMsg ∧
      (runAgentLoop env fuel msgs st).2.2.length = msgs.length + 2 * fuel
  | 0, msgs, st => ⟨rfl, by simp [runAgentLoop]⟩
  | fuel + 1, msgs, st => by
    have hp := h msgs
    cases hq : parse_tool_call (env.chat msgs) with
    | none => rw [hq] at hp; simp at hp
    | some pr =>
      obtain ⟨fn, args⟩ := pr
      rw [runAgentLoop_succ_some env fuel msgs st fn args hq]
      have ih := runAgentLoop_all_tool_calls env h fuel
        (msgs ++ [{ role := "assistant", content := env.chat msgs }] ++
          [{ role := "user",
             content := "Tool-Ergebnis von " ++ fn ++ ":\n\n" ++
               (execute_tool env fn args st).1 ++
               "\n\nFahre mit dem nächsten Schritt fort." }])
        (execute_tool env fn args st).2
      refine ⟨ih.1, ?_⟩
      rw [ih.2]
      simp [List.length_append]
      ring

/-! ## Claim theorems -/

/-- C1: the claim says a 4xx response is never retried (exactly one attempt).
On the code, response.raise_for_status() raises httpx.HTTPStatusError for a
404 as well, and the except clause catches exactly that class, so a
persistent 404 is retried like a 5xx: all three attempts are made.  This
evaluation exhibits the three attempts on an all-404 call. -/
theorem retry_404_makes_three_attempts :
    (request_with_retry (fun _ => AttemptOutcome.response 404)).attempts = 3 := rfl

/-- C7: the full trace of a persistently-404 call: three attempts (not only
5xx/transport retries as claimed), backoff waits of 2 s and 4 s, and the last
observed error raised unchanged.  The at-most-3-attempts, backoff-sum and
propagate-last-error parts of the claim are visible in this trace; the
"retried only when status ≥ 500 or transport failure" part is refuted by it. -/
theorem retry_404_full_trace :
    request_with_retry (fun _ => AttemptOutcome.response 404) =
      { result := .error (.httpStatus 404), attempts := 3, waits := [2, 4] } := rfl

/-- C2: compare_tariffs always returns (it is a total function of the lookup
outcome); its baseline tariff is built arithmetically from the supplied
price, fee and consumption whatever the lookup does, and when the lookup
fails the alternatives list is empty. -/
theorem compare_tariffs_never_fails (lookup : Except String (List RawTariff))
    (plz : String) (jv : ℚ) (lief : String) (preis geb : ℚ) (top_n : Nat) :
    (compare_tariffs lookup plz jv lief preis geb top_n).aktueller_tarif =
      { lieferant := lief
        tarif_name := "Aktueller Tarif"
        energiepreis_ct_kwh := preis
        grundgebuehr_eur_monat := geb
        jahreskosten_eur := jv * preis / 100 + geb * 12
        ist_oekostrom := false
        quelle := "rechnung" } ∧
    (∀ e, lookup = .error e →
      (compare_tariffs lookup plz jv lief preis geb top_n).alternativen = []) := by
  refine ⟨?_, ?_⟩
  · cases lookup <;> rfl
  · intro e he
    subst he
    rfl

/-- Witness for C2 at a concrete failing lookup: the baseline costs
3500·30/100 + 15·12 = 1230 € and the alternatives are empty. -/
theorem compare_tariffs_never_fails_witness :
    (compare_tariffs (.error "E-Control Abfrage fehlgeschlagen") "1010" 3500 "EVN" 30 15 5).aktueller_tarif =
      { lieferant := "EVN"
        tarif_name := "Aktueller Tarif"
        energiepreis_ct_kwh := 30
        grundgebuehr_eur_monat := 15
        jahreskosten_eur := 1230
        ist_oekostrom := false
        quelle := "rechnung" } ∧
    (compare_tariffs (.error "E-Control Abfrage fehlgeschlagen") "1010" 3500 "EVN" 30 15 5).alternativen = [] := by
  have h := compare_tariffs_never_fails (.error "E-Control Abfrage fehlgeschlagen")
    "1010" 3500 "EVN" 30 15 5
  have e : (3500 * 30 / 100 + 15 * 12 : ℚ) = 1230 := by norm_num
  refine ⟨?_, h.2 _ rfl⟩
  rw [← e]
  exact h.1

/-- C3: in the deterministic pipeline, a failing invoice extraction aborts
the run with that very error, and a successful extraction yields a report
for every behaviour of the remaining collaborators (smart meter, tariff
lookup, BEG catalog, persistence). -/
theorem run_pipeline_invoice_only_fatal (env : Env) (p e pw : String) :
    (∀ err, env.parse_invoice p = .error err → run_pipeline env p e pw = .error err) ∧
    (∀ inv, env.parse_invoice p = .ok inv → ∃ out, run_pipeline env p e pw = .ok out) := by
  constructor
  · intro err h
    unfold run_pipeline
    rw [h]
  · intro inv h
    unfold run_pipeline
    rw [h]
    exact ⟨_, rfl⟩

/-- Witness for C3: with a succeeding extraction and every other collaborator
failing, the pipeline still returns a report. -/
theorem run_pipeline_invoice_only_fatal_witness :
    ∃ out, run_pipeline envStepsFailW "rechnung.pdf" "a@example.org" "geheim" = .ok out :=
  (run_pipeline_invoice_only_fatal envStepsFailW "rechnung.pdf" "a@example.org" "geheim").2
    invW rfl

/-- C4: when every model reply parses as a tool call, the agent loop stops
after exactly the configured number of turns (two transcript messages per
turn), returning the fixed too-many-steps message with the accumulated
state; it is a total function, so it cannot raise. -/
theorem run_agent_turn_bound (env : Env) (u : String) (st : AgentState) (max_turns : Nat)
    (h : ∀ msgs, (parse_tool_call (env.chat msgs)).isSome = true) :
    (run_agent env u st max_turns).1 = tooManyStepsMsg ∧
    (runAgentLoop env max_turns (initialMessages u) st).2.2.length = 2 + 2 * max_turns := by
  have hh := runAgentLoop_all_tool_calls env h max_turns (initialMessages u) st
  exact ⟨hh.1, by rw [hh.2]; rfl⟩

/-- Witness for C4: a model that answers every turn with a
generate_savings_report call exhausts all 15 default turns. -/
theorem run_agent_turn_bound_witness :
    (run_agent envAllToolCallsW "Analysiere meine Rechnung" emptyState MAX_TURNS).1 =
      tooManyStepsMsg ∧
    (runAgentLoop envAllToolCallsW MAX_TURNS
        (initialMessages "Analysiere meine Rechnung") emptyState).2.2.length =
      2 + 2 * MAX_TURNS :=
  run_agent_turn_bound envAllToolCallsW "Analysiere meine Rechnung" emptyState MAX_TURNS
    (fun _ => rfl)

/-- C5: a tool block whose JSON payload is malformed but still contains a
recognizable tool name (one the registry knows) is dispatched as that tool
with empty arguments instead of failing the turn. -/
theorem parse_tool_call_malformed_recovers (content : String) (raw : List Char) (nm : String)
    (h1 : toolCallSearch content.toList = some raw)
    (h2 : json_loads (String.mk raw) = none)
    (h3 : nameFallbackSearch raw = some nm)
    (h4 : VALID_TOOLS.contains nm = true) :
    parse_tool_call content = some (nm, []) := by
  simp only [parse_tool_call, h1, h2, h3]
  have hmem : nm ∈ VALID_TOOLS := by simpa using h4
  simp [hmem]

/-- Witness for C5: a block with a trailing comma (malformed JSON) naming
parse_invoice dispatches parse_invoice with empty arguments. -/
theorem parse_tool_call_malformed_recovers_witness :
    parse_tool_call malformedReplyW = some ("parse_invoice", []) :=
  parse_tool_call_malformed_recovers malformedReplyW
    (String.toList "\x7b\"name\": \"parse_invoice\", \x7d") "parse_invoice"
    rfl rfl rfl rfl

/-- C6: a well-formed tool block naming a tool outside the registry is not
dispatched: the reply becomes the final answer with the tool tags stripped,
and state and transcript are left untouched. -/
theorem run_agent_unknown_tool_final (env : Env) (u : String) (st : AgentState) (m : Nat)
    (raw : List Char) (j : Json)
    (h1 : toolCallSearch (env.chat (initialMessages u)).toList = some raw)
    (h2 : json_loads (String.mk raw) = some j)
    (h3 : ∀ s, jsonGetD j "name" (Json.str "") = Json.str s → VALID_TOOLS.contains s = false) :
    run_agent env u st (m + 1) = (cleanupOutput (env.chat (initialMessages u)), st) ∧
    (runAgentLoop env (m + 1) (initialMessages u) st).2.2 = initialMessages u := by
  have hparse : parse_tool_call (env.chat (initialMessages u)) = none := by
    simp only [parse_tool_call, h1, h2]
    cases hn : jsonGetD j "name" (Json.str "") with
    | str s =>
      have hns : s ∉ VALID_TOOLS := by simpa using h3 s hn
      simp [hns]
    | null => simp
    | bool b => simp
    | num q => simp
    | arr es => simp
    | obj ms => simp
    | nonfinite s => simp
  have hloop := runAgentLoop_succ_none env m (initialMessages u) st hparse
  exact ⟨by simp [run_agent, hloop], by simp [hloop]⟩

/-- Witness for C6: the unknown_tool reply is returned as the final answer
with the tags stripped and the run state unchanged. -/
theorem run_agent_unknown_tool_final_witness :
    run_agent envUnknownToolW "Hi" emptyState MAX_TURNS =
      ("Hallo \x7b\"name\": \"unknown_tool\"\x7d fertig", emptyState) := by
  have h := run_agent_unknown_tool_final envUnknownToolW "Hi" emptyState 14
    (String.toList "\x7b\"name\": \"unknown_tool\"\x7d")
    (Json.obj [("name", Json.str "unknown_tool")])
    rfl rfl
    (by
      intro s hs
      have hs' : Json.str "unknown_tool" = Json.str s := hs
      injection hs' with h'
      rw [← h']
      decide)
  exact h.1.trans (by decide)

/-- C8: for every lookup result, the alternatives of the comparison are
sorted ascending by annual cost, contain at most 5 entries, and every entry
has a strictly positive annual cost (records whose computed cost is ≤ 0
were discarded). -/
theorem compare_tariffs_top5_sorted (raws : List RawTariff) (plz : String)
    (jv : ℚ) (lief : String) (preis geb : ℚ) :
    List.Sorted costLe (compare_tariffs (.ok raws) plz jv lief preis geb 5).alternativen ∧
    (compare_tariffs (.ok raws) plz jv lief preis geb 5).alternativen.length ≤ 5 ∧
    ∀ t ∈ (compare_tariffs (.ok raws) plz jv lief preis geb 5).alternativen,
      0 < t.jahreskosten_eur := by
  have halt : (compare_tariffs (.ok raws) plz jv lief preis geb 5).alternativen =
      (List.insertionSort costLe (raws.filterMap (fun raw =>
        match parse_tariff raw jv with
        | some tarif => if 0 < tarif.jahreskosten_eur then some tarif else none
        | none => none))).take 5 := rfl
  rw [halt]
  refine ⟨?_, ?_, ?_⟩
  · exact List.Pairwise.sublist (List.take_sublist 5 _)
      (List.sorted_insertionSort costLe _)
  · rw [List.length_take]
    exact min_le_left _ _
  · intro t ht
    have ht1 := List.take_subset 5 _ ht
    have ht2 := ((List.perm_insertionSort costLe _).mem_iff).mp ht1
    obtain ⟨raw, _, hf⟩ := List.mem_filterMap.mp ht2
    cases hp : parse_tariff raw jv with
    | none => rw [hp] at hf; simp at hf
    | some tarif =>
      rw [hp] at hf
      by_cases h01 : 0 < tarif.jahreskosten_eur
      · simp only [if_pos h01, Option.some.injEq] at hf
        exact hf ▸ h01
      · simp [h01] at hf

/-- Witness for C8: nine raw records (seven parseable with distinct costs,
one with cost 0, one COMPLEX) yield a sorted list of five positive-cost
alternatives; the cheapest one (120 €/year) is among them. -/
theorem compare_tariffs_top5_sorted_witness :
    List.Sorted costLe (compare_tariffs (.ok rawsW) "1010" 3500 "EVN" 30 15 5).alternativen ∧
    (compare_tariffs (.ok rawsW) "1010" 3500 "EVN" 30 15 5).alternativen.length ≤ 5 ∧
    0 < tariffW.jahreskosten_eur := by
  have h := compare_tariffs_top5_sorted rawsW "1010" 3500 "EVN" 30 15
  have hlist : (compare_tariffs (.ok rawsW) "1010" 3500 "EVN" 30 15 5).alternativen =
      [ { lieferant := "P1", tarif_name := "T1", energiepreis_ct_kwh := 0,
          grundgebuehr_eur_monat := 10, jahreskosten_eur := 120,
          ist_oekostrom := false, quelle := "e-control" }
      , { lieferant := "P3", tarif_name := "T3", energiepreis_ct_kwh := 0,
          grundgebuehr_eur_monat := 30, jahreskosten_eur := 360,
          ist_oekostrom := false, quelle := "e-control" }
      , { lieferant := "P4", tarif_name := "T4", energiepreis_ct_kwh := 0,
          grundgebuehr_eur_monat := 40, jahreskosten_eur := 480,
          ist_oekostrom := false, quelle := "e-control" }
      , { lieferant := "P5", tarif_name := "T5", energiepreis_ct_kwh := 0,
          grundgebuehr_eur_monat := 50, jahreskosten_eur := 600,
          ist_oekostrom := false, quelle := "e-control" }
      , { lieferant := "P6", tarif_name := "T6", energiepreis_ct_kwh := 0,
          grundgebuehr_eur_monat := 60, jahreskosten_eur := 720,
          ist_oekostrom := false, quelle := "e-control" } ] := by
    norm_num +decide [compare_tariffs, rawsW, rawBaseOnlyW, List.filterMap_cons,
      List.filterMap_nil, parse_tariff, round2, roundHalfEven, Rat.floor,
      List.insertionSort, List.orderedInsert, costLe]
  refine ⟨h.1, h.2.1, h.2.2 tariffW ?_⟩
  rw [hlist]
  exact List.mem_cons_self _ _

/-- C9: a consumption series whose window spans a positive whole number of
days projects to total kWh divided by the day count times 365. -/
theorem jahresverbrauch_whole_days (d : SmartMeterData) (v b days : Int)
    (hv : d.zeitraum_von = some v) (hb : d.zeitraum_bis = some b)
    (hspan : b - v = 86400 * days) (hpos : 0 < days) :
    d.jahresverbrauch_kwh = d.total_kwh / (days : ℚ) * 365 := by
  have htage : d.tage = days := by
    simp only [SmartMeterData.tage, hv, hb, hspan]
    exact Int.mul_fdiv_cancel_left days (by norm_num)
  unfold SmartMeterData.jahresverbrauch_kwh
  rw [htage, if_neg (not_le.mpr hpos)]

/-- Witness for C9: a series of 900 kWh over exactly 30 days projects to
10950 kWh. -/
theorem jahresverbrauch_whole_days_witness :
    smart30W.jahresverbrauch_kwh = 10950 := by
  have h := jahresverbrauch_whole_days smart30W 0 2592000 30 rfl rfl (by decide) (by decide)
  exact h.trans (by norm_num [SmartMeterData.total_kwh, smart30W])

/-- C10: beste_beg returns an option only if its annual savings are strictly
positive, max_ersparnis_eur is never negative, and when no option saves
money beste_beg is None. -/
theorem beste_beg_only_profitable (c : BEGComparison) :
    (∀ b, c.beste_beg = some b → 0 < b.ersparnis_jahr_eur) ∧
    0 ≤ c.max_ersparnis_eur ∧
    ((∀ b ∈ c.optionen, b.ersparnis_jahr_eur ≤ 0) → c.beste_beg = none) := by
  refine ⟨fun b h => beste_beg_pos c b h, ?_, ?_⟩
  · cases hb : c.beste_beg with
    | none => simp [BEGComparison.max_ersparnis_eur, hb]
    | some best =>
      simp only [BEGComparison.max_ersparnis_eur, hb]
      exact le_of_lt (beste_beg_pos c best hb)
  · intro hall
    have hfil : c.optionen.filter (fun y => decide (0 < y.ersparnis_jahr_eur)) = [] := by
      rw [List.filter_eq_nil_iff]
      intro a ha
      simpa using not_lt.mpr (hall a ha)
    simp [BEGComparison.beste_beg, hfil]

/-- Witness for C10: a single profitable option (262.50 € savings) is
selected and the maximal savings are nonnegative. -/
theorem beste_beg_only_profitable_witness :
    0 < begCalcW.ersparnis_jahr_eur ∧
    0 ≤ (BEGComparison.mk [begCalcW]).max_ersparnis_eur := by
  have hbb : (BEGComparison.mk [begCalcW]).beste_beg = some begCalcW := by
    norm_num +decide [BEGComparison.beste_beg, begCalcW, BEGCalculation.ersparnis_jahr_eur,
      BEGCalculation.kosten_ohne_beg_eur, BEGCalculation.kosten_mit_beg_eur,
      BEGCalculation.beg_anteil_kwh, BEGCalculation.rest_anteil_kwh, List.filter]
  exact ⟨(beste_beg_only_profitable ⟨[begCalcW]⟩).1 begCalcW hbb,
    (beste_beg_only_profitable ⟨[begCalcW]⟩).2.1⟩

end Gridbert
